import Mathlib

/-!
Shallow embedding of `src/python/src/ouster/sdkx/parsing.py` (lidar packet
parsing and reconstruction), together with proofs about the claims of the
specification.  Buffers are modelled as functions from byte index to byte
value; numpy strided views become explicit index arithmetic; machine
integers are `Nat` with explicit `% 2^w` where overflow matters.
-/

/-- Logical per-pixel channels (`ouster.client.ChanField`), as used by the
field tables of `parsing.py`. -/
inductive ChanField
  | RANGE
  | RANGE2
  | SIGNAL
  | SIGNAL2
  | REFLECTIVITY
  | REFLECTIVITY2
  | NEAR_IR
  | FLAGS
  | FLAGS2
  | RAW_HEADERS
  | RAW32_WORD1
  | RAW32_WORD2
  | RAW32_WORD3
  | RAW32_WORD4
  | RAW32_WORD5
  deriving DecidableEq

/-- Column header kinds (`ouster.client.ColHeader`). -/
inductive ColHeader
  | TIMESTAMP
  | MEASUREMENT_ID
  | FRAME_ID
  | ENCODER_COUNT
  | STATUS
  deriving DecidableEq

/-- Lidar wire-format profile tags (`ouster.client.UDPProfileLidar`).
`PROFILE_LIDAR_CUSTOM0` stands for a custom profile with no default
field table and no registered packet-format variant. -/
inductive UDPProfileLidar
  | PROFILE_LIDAR_LEGACY
  | PROFILE_LIDAR_RNG15_RFL8_NIR8
  | PROFILE_LIDAR_RNG19_RFL8_SIG16_NIR16
  | PROFILE_LIDAR_RNG19_RFL8_SIG16_NIR16_DUAL
  | PROFILE_LIDAR_FIVE_WORD_PIXEL
  | PROFILE_LIDAR_CUSTOM0
  deriving DecidableEq

/-- Native storage widths of scan fields (numpy dtypes used in the
tables of `parsing.py`). -/
inductive FieldDType
  | uint8
  | uint16
  | uint32
  | uint64
  deriving DecidableEq

/-- `_legacy_scan_fields` (parsing.py line 18). -/
def legacyScanFields0 : ChanField → Option FieldDType := fun c =>
  match c with
  | .RANGE | .SIGNAL | .NEAR_IR | .REFLECTIVITY => some .uint32
  | _ => none

/-- `_lb_scan_fields` (parsing.py line 25). -/
def lbScanFields0 : ChanField → Option FieldDType := fun c =>
  match c with
  | .RANGE => some .uint32
  | .REFLECTIVITY | .NEAR_IR => some .uint16
  | _ => none

/-- `_single_scan_fields` (parsing.py line 31). -/
def singleScanFields0 : ChanField → Option FieldDType := fun c =>
  match c with
  | .RANGE => some .uint32
  | .SIGNAL | .NEAR_IR | .REFLECTIVITY => some .uint16
  | _ => none

/-- `_dual_scan_fields` (parsing.py line 38). -/
def dualScanFields0 : ChanField → Option FieldDType := fun c =>
  match c with
  | .RANGE | .RANGE2 => some .uint32
  | .SIGNAL | .SIGNAL2 | .REFLECTIVITY | .REFLECTIVITY2 | .NEAR_IR => some .uint16
  | _ => none

/-- `_five_word_pixel_fields` (parsing.py line 48). -/
def fiveWordScanFields0 : ChanField → Option FieldDType := fun c =>
  match c with
  | .RANGE | .RANGE2 => some .uint32
  | .SIGNAL | .SIGNAL2 | .REFLECTIVITY | .REFLECTIVITY2 | .NEAR_IR => some .uint16
  | .RAW32_WORD1 | .RAW32_WORD2 | .RAW32_WORD3 | .RAW32_WORD4 | .RAW32_WORD5 =>
      some .uint32
  | _ => none

/-- The mutable module-level per-profile field tables of `parsing.py`.
`default_scan_fields` mutates these in place via `dict.update`. -/
structure ScanFieldTables where
  legacy : ChanField → Option FieldDType
  lb : ChanField → Option FieldDType
  single : ChanField → Option FieldDType
  dual : ChanField → Option FieldDType
  five_word : ChanField → Option FieldDType

/-- Initial state of the module-level tables. -/
def initTables : ScanFieldTables :=
  ⟨legacyScanFields0, lbScanFields0, singleScanFields0, dualScanFields0,
   fiveWordScanFields0⟩

/-- The `profile_fields` lookup inside `default_scan_fields`
(parsing.py line 84): which module-level table a profile aliases. -/
def tableFor (s : ScanFieldTables) (p : UDPProfileLidar) :
    Option (ChanField → Option FieldDType) :=
  match p with
  | .PROFILE_LIDAR_LEGACY => some s.legacy
  | .PROFILE_LIDAR_RNG15_RFL8_NIR8 => some s.lb
  | .PROFILE_LIDAR_RNG19_RFL8_SIG16_NIR16 => some s.single
  | .PROFILE_LIDAR_RNG19_RFL8_SIG16_NIR16_DUAL => some s.dual
  | .PROFILE_LIDAR_FIVE_WORD_PIXEL => some s.five_word
  | .PROFILE_LIDAR_CUSTOM0 => none

/-- Write back a (possibly mutated) table into the module-level state;
models that `fields` aliases the module-level dict in the source. -/
def setTableFor (s : ScanFieldTables) (p : UDPProfileLidar)
    (t : ChanField → Option FieldDType) : ScanFieldTables :=
  match p with
  | .PROFILE_LIDAR_LEGACY => ⟨t, s.lb, s.single, s.dual, s.five_word⟩
  | .PROFILE_LIDAR_RNG15_RFL8_NIR8 => ⟨s.legacy, t, s.single, s.dual, s.five_word⟩
  | .PROFILE_LIDAR_RNG19_RFL8_SIG16_NIR16 =>
      ⟨s.legacy, s.lb, t, s.dual, s.five_word⟩
  | .PROFILE_LIDAR_RNG19_RFL8_SIG16_NIR16_DUAL =>
      ⟨s.legacy, s.lb, s.single, t, s.five_word⟩
  | .PROFILE_LIDAR_FIVE_WORD_PIXEL => ⟨s.legacy, s.lb, s.single, s.dual, t⟩
  | .PROFILE_LIDAR_CUSTOM0 => s

/-- `dict.update` with a single key (used by `default_scan_fields`). -/
def updateKey (t : ChanField → Option FieldDType) (k : ChanField)
    (v : FieldDType) : ChanField → Option FieldDType :=
  fun c => if c = k then some v else t c

/-- `default_scan_fields` (parsing.py line 66), with the module-level
table state passed explicitly: returns the produced mapping (`None` for
an unrecognized profile) plus the post-call state of the module tables.
The source aliases `fields = profile_fields[profile]` and then mutates
it via `fields.update(...)` before returning `fields.copy()`. -/
def default_scan_fields (profile : UDPProfileLidar) (flags raw_headers : Bool)
    (s : ScanFieldTables) :
    Option (ChanField → Option FieldDType) × ScanFieldTables :=
  match tableFor s profile with
  | none => (none, s)
  | some t0 =>
    let t1 := if flags then
        (if profile = .PROFILE_LIDAR_RNG19_RFL8_SIG16_NIR16_DUAL then
          updateKey (updateKey t0 .FLAGS .uint8) .FLAGS2 .uint8
        else updateKey t0 .FLAGS .uint8)
      else t0
    let t2 := if raw_headers then updateKey t1 .RAW_HEADERS .uint32 else t1
    (some t2, setTableFor s profile t2)

/-- `FieldDescr` (parsing.py line 119): byte offset within a column,
storage dtype, optional bit mask (0 means none) and signed bit shift
(positive means right-shift on read, negative means left-shift on read). -/
structure FieldDescr where
  offset : Int
  dtype : FieldDType
  mask : Nat
  shift : Int
  deriving DecidableEq

/-- Constructor helper for `FieldDescr`, arguments in declaration order. -/
def fd (offset : Int) (dtype : FieldDType) (mask : Nat) (shift : Int) :
    FieldDescr :=
  ⟨offset, dtype, mask, shift⟩

/-- Geometry constants of `PacketFormat.__init__` (parsing.py line 204),
fields in the keyword order of the source. -/
structure PacketFormat where
  packet_header_size : Nat
  columns_per_packet : Nat
  col_header_size : Nat
  pixels_per_column : Nat
  channel_data_size : Nat
  col_footer_size : Nat
  packet_footer_size : Nat
  deriving DecidableEq

/-- `self.column_size` as computed in `PacketFormat.__init__`
(parsing.py line 217). -/
def PacketFormat.column_size (pf : PacketFormat) : Nat :=
  pf.col_header_size + pf.pixels_per_column * pf.channel_data_size +
    pf.col_footer_size

/-- `self.lidar_packet_size` as computed in `PacketFormat.__init__`
(parsing.py line 220). -/
def PacketFormat.lidar_packet_size (pf : PacketFormat) : Nat :=
  pf.packet_header_size + pf.columns_per_packet * pf.column_size +
    pf.packet_footer_size

/-- `LegacyFormat.__init__` (parsing.py line 307). -/
def LegacyFormat (pixels_per_column columns_per_packet : Nat) : PacketFormat :=
  ⟨0, columns_per_packet, 16, pixels_per_column, 12, 4, 0⟩

/-- `EUDPFormat.__init__` (parsing.py line 349). -/
def EUDPFormat (pixels_per_column columns_per_packet channel_data_size : Nat) :
    PacketFormat :=
  ⟨32, columns_per_packet, 12, pixels_per_column, channel_data_size, 0, 32⟩

/-- `LBFormat.__init__` (parsing.py line 393). -/
def LBFormat (pixels_per_column columns_per_packet : Nat) : PacketFormat :=
  EUDPFormat pixels_per_column columns_per_packet 4

/-- `SingleFormat.__init__` (parsing.py line 411). -/
def SingleFormat (pixels_per_column columns_per_packet : Nat) : PacketFormat :=
  EUDPFormat pixels_per_column columns_per_packet 12

/-- `DualFormat.__init__` (parsing.py line 433). -/
def DualFormat (pixels_per_column columns_per_packet : Nat) : PacketFormat :=
  EUDPFormat pixels_per_column columns_per_packet 16

/-- `LegacyFormat._HEADERS` (parsing.py line 291). -/
def legacyHEADERS : ColHeader → Option FieldDescr := fun h =>
  match h with
  | .TIMESTAMP => some (fd 0 .uint64 0 0)
  | .MEASUREMENT_ID => some (fd 8 .uint16 0 0)
  | .FRAME_ID => some (fd 10 .uint16 0 0)
  | .ENCODER_COUNT => some (fd 12 .uint32 0 0)
  | .STATUS => some (fd (-4) .uint32 0 0)

/-- `LegacyFormat._FIELDS` (parsing.py line 299). -/
def legacyFIELDS : ChanField → Option FieldDescr := fun c =>
  match c with
  | .RANGE => some (fd 0 .uint32 0x000fffff 0)
  | .REFLECTIVITY => some (fd 4 .uint16 0 0)
  | .SIGNAL => some (fd 6 .uint16 0 0)
  | .FLAGS => some (fd 3 .uint8 0 4)
  | .NEAR_IR => some (fd 8 .uint16 0 0)
  | _ => none

/-- `EUDPFormat._HEADERS` (parsing.py line 343). -/
def eudpHEADERS : ColHeader → Option FieldDescr := fun h =>
  match h with
  | .TIMESTAMP => some (fd 0 .uint64 0 0)
  | .MEASUREMENT_ID => some (fd 8 .uint16 0 0)
  | .STATUS => some (fd 10 .uint16 0 0)
  | _ => none

/-- `LBFormat._FIELDS` (parsing.py line 387). -/
def lbFIELDS : ChanField → Option FieldDescr := fun c =>
  match c with
  | .RANGE => some (fd 0 .uint16 0x7fff (-3))
  | .REFLECTIVITY => some (fd 2 .uint8 0 0)
  | .NEAR_IR => some (fd 3 .uint8 0 (-4))
  | _ => none

/-- `SingleFormat._FIELDS` (parsing.py line 403). -/
def singleFIELDS : ChanField → Option FieldDescr := fun c =>
  match c with
  | .RANGE => some (fd 0 .uint32 0x000fffff 0)
  | .REFLECTIVITY => some (fd 4 .uint16 0 0)
  | .SIGNAL => some (fd 6 .uint16 0 0)
  | .FLAGS => some (fd 3 .uint8 0 4)
  | .NEAR_IR => some (fd 8 .uint16 0 0)
  | _ => none

/-- `DualFormat._FIELDS` (parsing.py line 421). -/
def dualFIELDS : ChanField → Option FieldDescr := fun c =>
  match c with
  | .RANGE => some (fd 0 .uint32 0x0007ffff 0)
  | .REFLECTIVITY => some (fd 3 .uint8 0 0)
  | .RANGE2 => some (fd 4 .uint32 0x0007ffff 0)
  | .REFLECTIVITY2 => some (fd 7 .uint8 0 0)
  | .SIGNAL => some (fd 8 .uint16 0 0)
  | .SIGNAL2 => some (fd 10 .uint16 0 0)
  | .FLAGS => some (fd 2 .uint8 0b11111000 3)
  | .FLAGS2 => some (fd 6 .uint8 0b11111000 3)
  | .NEAR_IR => some (fd 12 .uint16 0 0)
  | _ => none

/-- The per-class descriptor tables `_FIELDS` and `_HEADERS` of a
`PacketFormat` subclass (the class-level data `convertible` compares). -/
structure FormatClass where
  FIELDS : ChanField → Option FieldDescr
  HEADERS : ColHeader → Option FieldDescr

/-- Class-level tables of `LegacyFormat`. -/
def LegacyClass : FormatClass := ⟨legacyFIELDS, legacyHEADERS⟩

/-- Class-level tables of `LBFormat`. -/
def LBClass : FormatClass := ⟨lbFIELDS, eudpHEADERS⟩

/-- Class-level tables of `SingleFormat`. -/
def SingleClass : FormatClass := ⟨singleFIELDS, eudpHEADERS⟩

/-- Class-level tables of `DualFormat`. -/
def DualClass : FormatClass := ⟨dualFIELDS, eudpHEADERS⟩

/-- All constructors of `ChanField`, for finite key-set computations. -/
def allChanFields : List ChanField :=
  [.RANGE, .RANGE2, .SIGNAL, .SIGNAL2, .REFLECTIVITY, .REFLECTIVITY2,
   .NEAR_IR, .FLAGS, .FLAGS2, .RAW_HEADERS,
   .RAW32_WORD1, .RAW32_WORD2, .RAW32_WORD3, .RAW32_WORD4, .RAW32_WORD5]

/-- All constructors of `ColHeader`. -/
def allColHeaders : List ColHeader :=
  [.TIMESTAMP, .MEASUREMENT_ID, .FRAME_ID, .ENCODER_COUNT, .STATUS]

/-- `a._FIELDS.keys()` of a format class. -/
def fieldKeys (fc : FormatClass) : List ChanField :=
  allChanFields.filter (fun f => (fc.FIELDS f).isSome)

/-- `a._HEADERS.keys()` of a format class. -/
def headerKeys (fc : FormatClass) : List ColHeader :=
  allColHeaders.filter (fun h => (fc.HEADERS h).isSome)

/-- `PacketFormat.convertible` (parsing.py line 282): every field key and
every header key of `b` is present in `a`. -/
def convertible (a b : FormatClass) : Bool :=
  (fieldKeys b).all (fun f => (fieldKeys a).contains f) &&
    (headerKeys b).all (fun h => (headerKeys a).contains h)

/-- `PacketFormat.from_profile` (parsing.py line 263).  The `formats`
dict registers only the Legacy, Dual, Single and LB variants; any other
profile raises `KeyError` in the source, modelled as an error value.
The result pairs the class-level tables with the constructed geometry. -/
def from_profile (profile : UDPProfileLidar)
    (pixels_per_column columns_per_packet : Nat) :
    Except String (FormatClass × PacketFormat) :=
  match profile with
  | .PROFILE_LIDAR_LEGACY =>
      .ok (LegacyClass, LegacyFormat pixels_per_column columns_per_packet)
  | .PROFILE_LIDAR_RNG19_RFL8_SIG16_NIR16_DUAL =>
      .ok (DualClass, DualFormat pixels_per_column columns_per_packet)
  | .PROFILE_LIDAR_RNG19_RFL8_SIG16_NIR16 =>
      .ok (SingleClass, SingleFormat pixels_per_column columns_per_packet)
  | .PROFILE_LIDAR_RNG15_RFL8_NIR8 =>
      .ok (LBClass, LBFormat pixels_per_column columns_per_packet)
  | _ => .error "KeyError: unsupported profile"

/-- Size in bytes of a storage dtype. -/
def dtypeBytes : FieldDType → Nat
  | .uint8 => 1
  | .uint16 => 2
  | .uint32 => 4
  | .uint64 => 8

/-- The modulus of a descriptor's storage type, `2 ^ (8 * itemsize)`. -/
def elemMod (d : FieldDescr) : Nat := 2 ^ (8 * dtypeBytes d.dtype)

/-- Start byte of the open-ended slice `MaskedView.__init__` takes
before its `.view(dtype)` reinterpretation: for a channel field,
`packet_header_size + col_header_size + offset` (parsing.py line 136);
for a column header, `packet_header_size + offset + start` where
`start = 0 if offset >= 0 else column_size` (parsing.py lines 142-145). -/
def mvSliceStart (pf : PacketFormat) (key : Sum ChanField ColHeader)
    (d : FieldDescr) : Int :=
  match key with
  | .inl _ =>
      (pf.packet_header_size : Int) + (pf.col_header_size : Int) + d.offset
  | .inr _ =>
      (pf.packet_header_size : Int) + d.offset +
        (if 0 ≤ d.offset then 0 else (pf.column_size : Int))

/-- Byte length of the open-ended slice `data[sliceStart:]` of a
`dataLen`-byte buffer, for a nonnegative slice start (every descriptor
of the registered profiles yields one: field offsets are nonnegative
and the only negative header offset, STATUS at -4, is adjusted by
`column_size`); a start past the end gives the empty slice, as in
Python. -/
def viewSliceLen (dataLen : Nat) (sliceStart : Int) : Nat :=
  dataLen - sliceStart.toNat

/-- `MaskedView.__init__` (parsing.py line 127): fails with the
buffer-too-small error when the buffer is shorter than
`lidar_packet_size`; then looks up the key in the class tables
(`KeyError` in the source when the profile does not define the key);
then reinterprets the sliced buffer as the descriptor's dtype
(`data[...:].view(dtype=f.dtype)`), which numpy rejects with a
`ValueError` when the slice's byte count is not a multiple of the
dtype's itemsize; otherwise yields the resolved descriptor that drives
the created view. -/
def mkMaskedView (dataLen : Nat) (pf : PacketFormat) (fc : FormatClass)
    (key : Sum ChanField ColHeader) : Except String FieldDescr :=
  if dataLen < pf.lidar_packet_size then
    .error "Packet buffer smaller than expected size"
  else
    match key with
    | .inl f =>
        match fc.FIELDS f with
        | some d =>
            if viewSliceLen dataLen (mvSliceStart pf key d) %
                dtypeBytes d.dtype ≠ 0 then
              .error "ValueError: new type not compatible with array"
            else .ok d
        | none => .error "KeyError: unknown field"
    | .inr h =>
        match fc.HEADERS h with
        | some d =>
            if viewSliceLen dataLen (mvSliceStart pf key d) %
                dtypeBytes d.dtype ≠ 0 then
              .error "ValueError: new type not compatible with array"
            else .ok d
        | none => .error "KeyError: unknown header"

/-- `MaskedView.__getitem__` (parsing.py line 152) on one stored element:
apply the mask when nonzero, then the shift (positive shift is a
right-shift on read, negative a left-shift, which wraps in the element's
storage type as numpy left shift does). -/
def mv_read (d : FieldDescr) (raw : Nat) : Nat :=
  let v := if d.mask ≠ 0 then raw &&& d.mask else raw
  if 0 < d.shift then v >>> d.shift.toNat
  else if d.shift < 0 then (v <<< (-d.shift).toNat) % elemMod d
  else v

/-- `MaskedView.__setitem__` (parsing.py line 162) on one stored element
with prior stored value `old`: apply the inverse shift to the new value,
then either combine it under the mask with the prior bits outside the
mask, or store it directly (wrapping in the element's storage type). -/
def mv_write (d : FieldDescr) (old v : Nat) : Nat :=
  let v := if 0 < d.shift then v <<< d.shift.toNat
    else if d.shift < 0 then v >>> (-d.shift).toNat
    else v
  if d.mask ≠ 0 then (v &&& d.mask) ||| (old &&& ((elemMod d - 1) ^^^ d.mask))
  else v % elemMod d

/-- A raw byte buffer: byte index to byte value. -/
abbrev Buf := Nat → Nat

/-- Little-endian byte `k` of the integer `v`. -/
def byteOfElem (v k : Nat) : Nat := v / 256 ^ k % 256

/-- Bulk write of `len` bytes starting at `start`, taking byte `k` of the
written range from `src k`; models a numpy slice assignment
`buf[start:start+len] = src`. -/
def writeRange (f : Buf) (start len : Nat) (src : Nat → Nat) : Buf :=
  fun i => if start ≤ i ∧ i < start + len then src (i - start) else f i

/-- Little-endian read of `len` bytes starting at `off`; models
`int.from_bytes(data[off:off+len].tobytes(), byteorder='little')`. -/
def readLE (buf : Buf) (off : Nat) : Nat → Nat
  | 0 => 0
  | n + 1 => buf off % 256 + 256 * readLE buf (off + 1) n

/-- Little-endian write of `v` into `len` bytes at `off`; models
`data[off:off+len] = memoryview(val.to_bytes(len, byteorder='little'))`. -/
def writeLE (buf : Buf) (off len v : Nat) : Buf :=
  writeRange buf off len (fun k => byteOfElem v k)

/-- Assignment of the scalar `v` to every element of a strided element
view (`count` elements of `eb` bytes, `stride` bytes apart, first element
at byte `start`); models `view[:] = v` on a numpy strided view. -/
def writeStrided (buf : Buf) (start stride count eb v : Nat) : Buf :=
  fun i =>
    if start ≤ i ∧ (i - start) / stride < count ∧ (i - start) % stride < eb then
      byteOfElem v ((i - start) % stride)
    else buf i

/-- `LegacyFormat.frame_id` (parsing.py line 322): element 0 of the
FRAME_ID column-header view, i.e. a little-endian uint16 at byte offset
`packet_header_size + 10` (descriptor offset 10, mask 0, shift 0). -/
def legacy_frame_id (pf : PacketFormat) (buf : Buf) : Nat :=
  readLE buf (pf.packet_header_size + 10) 2

/-- `LegacyFormat.set_frame_id` (parsing.py line 325): assign `val` to
every element of the FRAME_ID column-header view, one uint16 per column
at stride `column_size`, wrapping the value in uint16. -/
def legacy_set_frame_id (pf : PacketFormat) (buf : Buf) (v : Nat) : Buf :=
  writeStrided buf (pf.packet_header_size + 10) pf.column_size
    pf.columns_per_packet 2 (v % 65536)

/-- `EUDPFormat.frame_id` (parsing.py line 365): little-endian uint16 at
packet-header bytes 2:4. -/
def eudp_frame_id (buf : Buf) : Nat := readLE buf 2 2

/-- `EUDPFormat.set_frame_id` (parsing.py line 368): little-endian
2-byte write at packet-header bytes 2:4. -/
def eudp_set_frame_id (buf : Buf) (v : Nat) : Buf := writeLE buf 2 2 v

/-- The packet-level accessors a packet format exposes, specialized to
the frame-id operations `terminator_buffer` needs. -/
structure FormatOps where
  lidar_packet_size : Nat
  frame_id : Buf → Nat
  set_frame_id : Buf → Nat → Buf

/-- Frame-id operations of an extended-family (`EUDPFormat`) format. -/
def eudpOps (pf : PacketFormat) : FormatOps :=
  ⟨pf.lidar_packet_size, eudp_frame_id, eudp_set_frame_id⟩

/-- Frame-id operations of the Legacy format. -/
def legacyOps (pf : PacketFormat) : FormatOps :=
  ⟨pf.lidar_packet_size, legacy_frame_id pf, legacy_set_frame_id pf⟩

/-- `terminator_buffer` (parsing.py line 721): read the frame id of the
last real packet buffer, fill a fresh `lidar_packet_size` buffer with
`0xfe`, and write `(curr_fid + 1) % 0xffff` as its frame id.  Note the
source's modulus is `0xffff` (65535), not the uint16 modulus 65536. -/
def terminator_buffer (ops : FormatOps) (last_buf : Buf) : Buf :=
  let curr_fid := ops.frame_id last_buf
  let tbuf : Buf := fun _ => 0xfe
  ops.set_frame_id tbuf ((curr_fid + 1) % 0xffff)

/-- A concrete last real packet buffer of an extended-family profile
whose frame-id field holds 65535. -/
def c1LastBuf : Buf := fun i => if i = 2 then 0xff else if i = 3 then 0xff else 0

/-- The parts of an assembled `LidarScan` the reconstruction reads: its
declared width `w` (columns per frame), height `h` (pixels per column),
the set of populated channels, and the RAW_HEADERS channel contents
`rh row col` (elements of `isize` bytes each, little-endian). -/
structure LidarScan where
  w : Nat
  h : Nat
  fields : List ChanField
  rh : Nat → Nat → Nat

/-- `np.any(field_rh[:, pi])`: whether any element of column `pi` of the
RAW_HEADERS channel is nonzero. -/
def colAny (s : LidarScan) (pi : Nat) : Bool :=
  (List.range s.h).any (fun r => s.rh r pi != 0)

/-- Python `range(0, w, cpp)` for positive step `cpp`: the packet start
columns `0, cpp, 2*cpp, ...` below `w`. -/
def packetIdxList (w cpp : Nat) : List Nat :=
  (List.range ((w + cpp - 1) / cpp)).map (fun g => g * cpp)

/-- View an element buffer (`isize` bytes per element, little-endian) as
a byte buffer; models `np.frombuffer(buf, dtype)` correspondence between
`buf_view` and the underlying bytearray. -/
def serializeBytes (isize : Nat) (E : Nat → Nat) : Buf :=
  fun j => byteOfElem (E (j / isize)) (j % isize)

/-- The packet buffer built by one loop iteration of
`gen_scan_buffers_fast` (parsing.py lines 620-642), as a byte buffer.
All offsets are in elements of `isize` bytes, exactly as the source
computes them (`int(pf.packet_header_size / buf_view_isize)` etc.); the
open-ended footer slice `buf_view[phs + cpp*cs:]` has length
`total - (phs + cpp*cs)` elements. -/
def fastPacketBuf (rh : Nat → Nat → Nat) (pf : PacketFormat)
    (isize pi : Nat) : Buf :=
  let phs := pf.packet_header_size / isize
  let chs := pf.col_header_size / isize
  let cfs := pf.col_footer_size / isize
  let cs := pf.column_size / isize
  let total := pf.lidar_packet_size / isize
  let E0 : Nat → Nat := fun _ => 0
  let E1 := writeRange E0 0 phs (fun k => rh (chs + cfs + k) pi)
  let E2 := writeRange E1 (phs + pf.columns_per_packet * cs)
    (total - (phs + pf.columns_per_packet * cs))
    (fun k => rh (chs + cfs + phs + k) pi)
  let EF := (List.range pf.columns_per_packet).foldl (fun E pc =>
    writeRange
      (writeRange E (phs + pc * cs) chs (fun k => rh k (pi + pc)))
      (phs + pc * cs + cs - cfs) cfs (fun k => rh (chs + k) (pi + pc))) E2
  serializeBytes isize EF

/-- `gen_scan_buffers_fast` (parsing.py line 580): empty when the scan
has no RAW_HEADERS channel; otherwise one packet buffer of
`lidar_packet_size` bytes per group of `columns_per_packet` columns,
skipping groups whose first column is entirely zero. -/
def gen_scan_buffers_fast (s : LidarScan) (pf : PacketFormat) (isize : Nat) :
    List (List Nat) :=
  if ¬ (s.fields.contains ChanField.RAW_HEADERS) then []
  else
    (packetIdxList s.w pf.columns_per_packet).filterMap (fun pi =>
      if ¬ colAny s pi then none
      else some ((List.range pf.lidar_packet_size).map
        (fastPacketBuf s.rh pf isize pi)))

/-- The packet buffer built by one loop iteration of
`gen_scan_buffers_nice` (parsing.py lines 679-688), composed from the
`LidarPacketHeaders` byte-range accessors (parsing.py line 466) on the
output side and the `RawHeadersFormat` accessors (parsing.py line 511)
on the RAW_HEADERS-column side; `colbytes c` is the contiguous uint8
view of scan column `c`.  Zero-sized regions are skipped, mirroring the
`if self._pf.xxx_size:` guards of the accessors. -/
def nicePacketBuf (rh : Nat → Nat → Nat) (pf : PacketFormat)
    (isize pi : Nat) : Buf :=
  let colbytes : Nat → Buf := fun c => serializeBytes isize (fun r => rh r c)
  let B0 : Buf := fun _ => 0
  let B1 := if pf.packet_header_size ≠ 0 then
      writeRange B0 0 pf.packet_header_size
        (fun k => colbytes pi (pf.col_header_size + pf.col_footer_size + k))
    else B0
  let B2 := if pf.packet_footer_size ≠ 0 then
      writeRange B1 (pf.lidar_packet_size - pf.packet_footer_size)
        pf.packet_footer_size
        (fun k => colbytes pi
          (pf.col_header_size + pf.col_footer_size + pf.packet_header_size + k))
    else B1
  (List.range pf.columns_per_packet).foldl (fun B pc =>
    let Bh := if pf.col_header_size ≠ 0 then
        writeRange B (pf.packet_header_size + pf.column_size * pc)
          pf.col_header_size (fun k => colbytes (pi + pc) k)
      else B
    if pf.col_footer_size ≠ 0 then
      writeRange Bh
        (pf.packet_header_size + pf.column_size * (pc + 1) - pf.col_footer_size)
        pf.col_footer_size (fun k => colbytes (pi + pc) (pf.col_header_size + k))
    else Bh) B2

/-- `gen_scan_buffers_nice` (parsing.py line 646): the structured
reconstruction, same iteration and skip logic as the fast variant. -/
def gen_scan_buffers_nice (s : LidarScan) (pf : PacketFormat) (isize : Nat) :
    List (List Nat) :=
  if ¬ (s.fields.contains ChanField.RAW_HEADERS) then []
  else
    (packetIdxList s.w pf.columns_per_packet).filterMap (fun pi =>
      if ¬ colAny s pi then none
      else some ((List.range pf.lidar_packet_size).map
        (nicePacketBuf s.rh pf isize pi)))

/-- A zero-length bulk write changes nothing. -/
theorem writeRange_zero_len (f : Buf) (a : Nat) (src : Nat → Nat) (i : Nat) :
    writeRange f a 0 src i = f i := by
  unfold writeRange
  rw [if_neg]
  omega

/-- Congruence for `writeRange` under pointwise-equal buffers and
sources. -/
theorem writeRange_eq (f g : Buf) (a1 a2 l1 l2 : Nat) (s1 s2 : Nat → Nat)
    (hf : ∀ i, f i = g i) (ha : a1 = a2) (hl : l1 = l2)
    (hs : ∀ k, s1 k = s2 k) (i : Nat) :
    writeRange f a1 l1 s1 i = writeRange g a2 l2 s2 i := by
  subst ha
  subst hl
  unfold writeRange
  split
  · exact hs _
  · exact hf i

/-- The `if size ≠ 0` accessor guards of the structured reconstruction
are no-ops: guarded and unguarded bulk writes agree pointwise. -/
theorem ite_writeRange (c : Nat) (B : Buf) (a : Nat) (src : Nat → Nat)
    (i : Nat) :
    (if c ≠ 0 then writeRange B a c src else B) i = writeRange B a c src i := by
  by_cases hc : c = 0
  · subst hc
    simp [writeRange_zero_len]
  · rw [if_pos hc]

/-- Viewing an element-level bulk write as bytes is a byte-level bulk
write at the scaled offset and length. -/
theorem serializeBytes_writeRange (isize : Nat) (hi : 0 < isize)
    (E src : Nat → Nat) (a len j : Nat) :
    serializeBytes isize (writeRange E a len src) j =
      writeRange (serializeBytes isize E) (a * isize) (len * isize)
        (fun k => byteOfElem (src (k / isize)) (k % isize)) j := by
  unfold serializeBytes writeRange
  by_cases hin : a * isize ≤ j ∧ j < a * isize + len * isize
  · obtain ⟨hj1, hj2⟩ := hin
    have hq1 : a ≤ j / isize := (Nat.le_div_iff_mul_le hi).mpr hj1
    have hq2 : j / isize < a + len := by
      refine (Nat.div_lt_iff_lt_mul hi).mpr ?_
      rw [Nat.add_mul]
      omega
    rw [if_pos ⟨hq1, hq2⟩, if_pos ⟨hj1, hj2⟩]
    have ht : j = isize * a + (j - a * isize) := by
      rw [Nat.mul_comm isize a]
      omega
    have ed : j / isize - a = (j - a * isize) / isize := by
      conv_lhs => rw [ht]
      rw [Nat.mul_add_div hi]
      exact Nat.add_sub_cancel_left a _
    have em : j % isize = (j - a * isize) % isize := by
      conv_lhs => rw [ht]
      rw [Nat.mul_add_mod]
    rw [ed, em]
  · have hq : ¬ (a ≤ j / isize ∧ j / isize < a + len) := by
      intro hand
      apply hin
      constructor
      · exact (Nat.le_div_iff_mul_le hi).mp hand.1
      · have := (Nat.div_lt_iff_lt_mul hi).mp hand.2
        rw [Nat.add_mul] at this
        omega
    rw [if_neg hq, if_neg hin]

/-- Reading the byte view of an element buffer at an element-aligned
offset: byte `k` past element `off` is byte `k % isize` of element
`off + k / isize`. -/
theorem serializeBytes_shift (isize : Nat) (hi : 0 < isize) (f : Nat → Nat)
    (off k : Nat) :
    serializeBytes isize f (isize * off + k) =
      byteOfElem (f (off + k / isize)) (k % isize) := by
  unfold serializeBytes
  rw [Nat.mul_add_div hi, Nat.mul_add_mod]

/-- The byte view of the all-zero element buffer is all zero. -/
theorem serializeBytes_zero (isize j : Nat) :
    serializeBytes isize (fun _ => 0) j = 0 := by
  unfold serializeBytes byteOfElem
  simp

/-- `filterMap` congruence over a fixed list. -/
theorem filterMap_congr_fn {α β : Type} (l : List α) (f g : α → Option β)
    (h : ∀ x ∈ l, f x = g x) : l.filterMap f = l.filterMap g := by
  induction l with
  | nil => rfl
  | cons a l ih =>
    rw [List.filterMap_cons, List.filterMap_cons, h a (by simp),
      ih (fun x hx => h x (by simp [hx]))]

/-- Counting the kept entries of a guarded `filterMap`. -/
theorem filterMap_guard_length {α β : Type} (l : List α) (p : α → Bool)
    (m : α → β) :
    (l.filterMap (fun x => if ¬ p x then none else some (m x))).length =
      (l.filter p).length := by
  induction l with
  | nil => rfl
  | cons a l ih =>
    rw [List.filterMap_cons, List.filter_cons]
    by_cases hp : p a = true
    · simp only [Bool.not_eq_true] at ih ⊢
      simp [hp, ih]
    · rw [Bool.not_eq_true] at hp
      simp only [Bool.not_eq_true] at ih ⊢
      simp [hp, ih]

/-- Folding pointwise-compatible steps over the same list from
pointwise-equal accumulators yields pointwise-equal results (the
element-level fold viewed as bytes versus the byte-level fold). -/
theorem foldl_fn_pointwise (isize : Nat)
    (stepE stepB : (Nat → Nat) → Nat → (Nat → Nat))
    (hstep : ∀ (E B : Nat → Nat) (pc : Nat),
      (∀ j, serializeBytes isize E j = B j) →
      ∀ j, serializeBytes isize (stepE E pc) j = stepB B pc j) :
    ∀ (l : List Nat) (E B : Nat → Nat),
      (∀ j, serializeBytes isize E j = B j) →
      ∀ j, serializeBytes isize (l.foldl stepE E) j = l.foldl stepB B j := by
  intro l
  induction l with
  | nil => intro E B h j; exact h j
  | cons pc l ih =>
    intro E B h j
    simp only [List.foldl_cons]
    exact ih _ _ (hstep E B pc h) j

/-- Abstract form of the per-packet equivalence between the fast
(element-level) and the structured (byte-level) reconstruction: with all
element counts `phs, chs, cfs, cs, total` matching the byte sizes
`PHS, CHS, CFS, CS, PFS, LPS` up to the element size, the two write
sequences produce the same bytes. -/
theorem fastnice_abstract (isize : Nat) (hi : 0 < isize)
    (rh : Nat → Nat → Nat) (pi cpp : Nat)
    (phs chs cfs cs total : Nat) (PHS CHS CFS CS PFS LPS : Nat)
    (bphs : phs * isize = PHS) (bchs : chs * isize = CHS)
    (bcfs : cfs * isize = CFS) (bcs : cs * isize = CS)
    (etotal : total = phs + cpp * cs + PFS / isize)
    (bpfs : PFS / isize * isize = PFS)
    (elps : LPS = PHS + cpp * CS + PFS) (j : Nat) :
    serializeBytes isize
      ((List.range cpp).foldl (fun E pc =>
        writeRange
          (writeRange E (phs + pc * cs) chs (fun k => rh k (pi + pc)))
          (phs + pc * cs + cs - cfs) cfs (fun k => rh (chs + k) (pi + pc)))
        (writeRange
          (writeRange (fun _ => 0) 0 phs (fun k => rh (chs + cfs + k) pi))
          (phs + cpp * cs) (total - (phs + cpp * cs))
          (fun k => rh (chs + cfs + phs + k) pi))) j
    = (List.range cpp).foldl (fun B pc =>
        if CFS ≠ 0 then
          writeRange
            (if CHS ≠ 0 then
              writeRange B (PHS + CS * pc) CHS
                (fun k => serializeBytes isize (fun r => rh r (pi + pc)) k)
            else B)
            (PHS + CS * (pc + 1) - CFS) CFS
            (fun k => serializeBytes isize (fun r => rh r (pi + pc)) (CHS + k))
        else
          (if CHS ≠ 0 then
            writeRange B (PHS + CS * pc) CHS
              (fun k => serializeBytes isize (fun r => rh r (pi + pc)) k)
          else B))
        (if PFS ≠ 0 then
          writeRange
            (if PHS ≠ 0 then
              writeRange (fun _ => 0) 0 PHS
                (fun k => serializeBytes isize (fun r => rh r pi) (CHS + CFS + k))
            else (fun _ => 0))
            (LPS - PFS) PFS
            (fun k => serializeBytes isize (fun r => rh r pi) (CHS + CFS + PHS + k))
        else
          (if PHS ≠ 0 then
            writeRange (fun _ => 0) 0 PHS
              (fun k => serializeBytes isize (fun r => rh r pi) (CHS + CFS + k))
          else (fun _ => 0))) j := by
  have hsrc0 : ∀ off OFF c, off * isize = OFF →
      ∀ k, byteOfElem (rh (off + k / isize) c) (k % isize) =
        serializeBytes isize (fun r => rh r c) (OFF + k) := by
    intro off OFF c hoff k
    rw [← hoff, Nat.mul_comm off isize, serializeBytes_shift isize hi]
  have hbase : ∀ j0,
      serializeBytes isize
        (writeRange
          (writeRange (fun _ => 0) 0 phs (fun k => rh (chs + cfs + k) pi))
          (phs + cpp * cs) (total - (phs + cpp * cs))
          (fun k => rh (chs + cfs + phs + k) pi)) j0
      = (if PFS ≠ 0 then
          writeRange
            (if PHS ≠ 0 then
              writeRange (fun _ => 0) 0 PHS
                (fun k => serializeBytes isize (fun r => rh r pi) (CHS + CFS + k))
            else (fun _ => 0))
            (LPS - PFS) PFS
            (fun k => serializeBytes isize (fun r => rh r pi) (CHS + CFS + PHS + k))
        else
          (if PHS ≠ 0 then
            writeRange (fun _ => 0) 0 PHS
              (fun k => serializeBytes isize (fun r => rh r pi) (CHS + CFS + k))
          else (fun _ => 0))) j0 := by
    intro j0
    rw [serializeBytes_writeRange isize hi, ite_writeRange]
    refine writeRange_eq _ _ _ _ _ _ _ _ ?_ ?_ ?_ ?_ j0
    · intro i
      rw [serializeBytes_writeRange isize hi, ite_writeRange]
      refine writeRange_eq _ _ _ _ _ _ _ _ ?_ ?_ ?_ ?_ i
      · intro i2
        exact serializeBytes_zero isize i2
      · exact Nat.zero_mul isize
      · exact bphs
      · exact hsrc0 (chs + cfs) (CHS + CFS) pi (by rw [Nat.add_mul, bchs, bcfs])
    · rw [show (phs + cpp * cs) * isize = PHS + cpp * CS from by
        rw [← bphs, ← bcs]; ring]
      rw [elps, Nat.add_sub_cancel]
    · rw [show total - (phs + cpp * cs) = PFS / isize from by
        rw [etotal]; exact Nat.add_sub_cancel_left _ _]
      exact bpfs
    · exact hsrc0 (chs + cfs + phs) (CHS + CFS + PHS) pi
        (by rw [Nat.add_mul, Nat.add_mul, bchs, bcfs, bphs])
  have hstep : ∀ (E B : Nat → Nat) (pc : Nat),
      (∀ j0, serializeBytes isize E j0 = B j0) →
      ∀ j0,
        serializeBytes isize
          (writeRange
            (writeRange E (phs + pc * cs) chs (fun k => rh k (pi + pc)))
            (phs + pc * cs + cs - cfs) cfs
            (fun k => rh (chs + k) (pi + pc))) j0
        = (if CFS ≠ 0 then
            writeRange
              (if CHS ≠ 0 then
                writeRange B (PHS + CS * pc) CHS
                  (fun k => serializeBytes isize (fun r => rh r (pi + pc)) k)
              else B)
              (PHS + CS * (pc + 1) - CFS) CFS
              (fun k => serializeBytes isize (fun r => rh r (pi + pc)) (CHS + k))
          else
            (if CHS ≠ 0 then
              writeRange B (PHS + CS * pc) CHS
                (fun k => serializeBytes isize (fun r => rh r (pi + pc)) k)
            else B)) j0 := by
    intro E B pc hEB j0
    rw [serializeBytes_writeRange isize hi, ite_writeRange]
    refine writeRange_eq _ _ _ _ _ _ _ _ ?_ ?_ ?_ ?_ j0
    · intro i
      rw [serializeBytes_writeRange isize hi, ite_writeRange]
      refine writeRange_eq _ _ _ _ _ _ _ _ hEB ?_ ?_ ?_ i
      · rw [← bphs, ← bcs]; ring
      · exact bchs
      · intro k; rfl
    · rw [Nat.sub_mul,
        show (phs + pc * cs + cs) * isize = PHS + CS * (pc + 1) from by
          rw [← bphs, ← bcs]; ring,
        bcfs]
    · exact bcfs
    · exact hsrc0 chs CHS (pi + pc) bchs
  exact foldl_fn_pointwise isize _ _ hstep (List.range cpp) _ _ hbase j

/-- The per-packet buffers of the two reconstructions agree byte for
byte whenever the RAW_HEADERS element size divides every region size
(it always does for the real profiles, whose sizes are multiples of 4
and whose element type is at most uint32). -/
theorem fastPacketBuf_eq_nicePacketBuf (rh : Nat → Nat → Nat)
    (pf : PacketFormat) (isize pi : Nat) (hi : 0 < isize)
    (h1 : isize ∣ pf.packet_header_size) (h2 : isize ∣ pf.col_header_size)
    (h3 : isize ∣ pf.col_footer_size) (h4 : isize ∣ pf.column_size)
    (h5 : isize ∣ pf.packet_footer_size) (j : Nat) :
    fastPacketBuf rh pf isize pi j = nicePacketBuf rh pf isize pi j := by
  obtain ⟨a1, e1⟩ := h1
  obtain ⟨a4, e4⟩ := h4
  obtain ⟨a5, e5⟩ := h5
  have hlps : pf.lidar_packet_size =
      isize * (a1 + pf.columns_per_packet * a4 + a5) := by
    show pf.packet_header_size + pf.columns_per_packet * pf.column_size +
        pf.packet_footer_size = _
    rw [e1, e4, e5]
    ring
  have etotal : pf.lidar_packet_size / isize =
      pf.packet_header_size / isize +
        pf.columns_per_packet * (pf.column_size / isize) +
        pf.packet_footer_size / isize := by
    rw [hlps, Nat.mul_div_cancel_left _ hi, e1, Nat.mul_div_cancel_left a1 hi,
      e4, Nat.mul_div_cancel_left a4 hi, e5, Nat.mul_div_cancel_left a5 hi]
  exact fastnice_abstract isize hi rh pi pf.columns_per_packet
    (pf.packet_header_size / isize) (pf.col_header_size / isize)
    (pf.col_footer_size / isize) (pf.column_size / isize)
    (pf.lidar_packet_size / isize)
    pf.packet_header_size pf.col_header_size pf.col_footer_size
    pf.column_size pf.packet_footer_size pf.lidar_packet_size
    (Nat.div_mul_cancel ⟨a1, e1⟩) (Nat.div_mul_cancel h2)
    (Nat.div_mul_cancel h3) (Nat.div_mul_cancel ⟨a4, e4⟩) etotal
    (Nat.div_mul_cancel ⟨a5, e5⟩) rfl j

/-- Claim C3: for every assembled scan with a RAW_HEADERS channel and
matching metadata (the element size divides every region size, as holds
for all real profiles), the fast reconstruction and the structured
reconstruction yield the same number of buffers with byte-identical
contents. -/
theorem claim_C3_fast_nice_equal (s : LidarScan) (pf : PacketFormat)
    (isize : Nat) (hi : 0 < isize)
    (h1 : isize ∣ pf.packet_header_size) (h2 : isize ∣ pf.col_header_size)
    (h3 : isize ∣ pf.col_footer_size) (h4 : isize ∣ pf.column_size)
    (h5 : isize ∣ pf.packet_footer_size) :
    gen_scan_buffers_fast s pf isize = gen_scan_buffers_nice s pf isize := by
  unfold gen_scan_buffers_fast gen_scan_buffers_nice
  by_cases hrh : s.fields.contains ChanField.RAW_HEADERS
  · rw [if_neg (by simpa using hrh), if_neg (by simpa using hrh)]
    apply filterMap_congr_fn
    intro pi hpi
    by_cases hca : colAny s pi
    · rw [if_neg (by simp [hca]), if_neg (by simp [hca])]
      have hfun : fastPacketBuf s.rh pf isize pi =
          nicePacketBuf s.rh pf isize pi :=
        funext (fun j =>
          fastPacketBuf_eq_nicePacketBuf s.rh pf isize pi hi h1 h2 h3 h4 h5 j)
      rw [hfun]
    · rw [if_pos (by simp [hca]), if_pos (by simp [hca])]
  · rw [if_pos (by simpa using hrh), if_pos (by simpa using hrh)]

/-- Witness for C3 at a concrete dual-return scan: two columns, one
column group per packet, uint32 RAW_HEADERS elements. -/
theorem claim_C3_witness :
    gen_scan_buffers_fast ⟨2, 1, [ChanField.RAW_HEADERS], fun _ _ => 1⟩
        (DualFormat 1 1) 4
      = gen_scan_buffers_nice ⟨2, 1, [ChanField.RAW_HEADERS], fun _ _ => 1⟩
        (DualFormat 1 1) 4 :=
  claim_C3_fast_nice_equal ⟨2, 1, [ChanField.RAW_HEADERS], fun _ _ => 1⟩
    (DualFormat 1 1) 4 (by decide) ⟨8, rfl⟩ ⟨3, rfl⟩ ⟨0, rfl⟩ ⟨7, rfl⟩ ⟨8, rfl⟩

/-- Claim C1 (code-bug evidence): the spec says the terminator's frame-id
field is `(last_buffer.frame_id + 1) mod 65536`, matching the source's
own comment that frame_id is uint16 and must be "properly wrapped" on +1;
the code instead computes `(curr_fid + 1) % 0xffff` (modulus 65535).  At
last frame id 65535 the code writes `65536 % 65535 = 1`, so the frame-id
field reads back as 1 where the claim (and the spec's scenario) says 0.
Every byte outside the frame-id field is 0xFE as claimed. -/
theorem claim_C1_terminator_bug :
    eudp_frame_id c1LastBuf = 65535 ∧
    eudp_frame_id
      (terminator_buffer (eudpOps (DualFormat 16 16)) c1LastBuf) = 1 ∧
    (65535 + 1) % 65536 = 0 ∧
    (1 : Nat) ≠ (65535 + 1) % 65536 ∧
    terminator_buffer (eudpOps (DualFormat 16 16)) c1LastBuf 5000 = 0xfe := by
  decide

/-- Claim C2 (counterexample): after a call with `flags=True` on the
Legacy profile, a later call with `flags=False` and `raw_headers=False`
returns a mapping that still contains FLAGS, contradicting the claim
that it returns exactly the profile's base mapping regardless of
earlier calls. -/
theorem claim_C2_counterexample :
    ((default_scan_fields .PROFILE_LIDAR_LEGACY false false
        (default_scan_fields .PROFILE_LIDAR_LEGACY true false
          initTables).2).1.map
      (fun t => t ChanField.FLAGS)) = some (some FieldDType.uint8) := by
  decide

/-- Claim C2 (amended): the returned mapping is a copy of the profile's
table as mutated by the requested options, and a call with both options
false neither adds keys nor changes the module tables; but a call with
`flags=True` (or `raw_headers=True`) mutates the internal per-profile
table in place, so a subsequent `flags=False` call on that profile
returns a mapping that still contains the previously added keys. -/
theorem claim_C2_amended :
    (∀ p, (default_scan_fields p false false initTables).2 = initTables) ∧
    ((default_scan_fields .PROFILE_LIDAR_LEGACY false false initTables).1
        = some legacyScanFields0) ∧
    (legacyScanFields0 ChanField.FLAGS = none ∧
      legacyScanFields0 ChanField.FLAGS2 = none ∧
      legacyScanFields0 ChanField.RAW_HEADERS = none) ∧
    ((default_scan_fields .PROFILE_LIDAR_LEGACY true false initTables).2.legacy
        ChanField.FLAGS = some FieldDType.uint8) ∧
    ((default_scan_fields .PROFILE_LIDAR_LEGACY false false
        (default_scan_fields .PROFILE_LIDAR_LEGACY true false
          initTables).2).1.map
      (fun t => t ChanField.FLAGS) = some (some FieldDType.uint8)) := by
  refine ⟨?_, ?_, ?_, ?_, ?_⟩
  · intro p
    cases p <;> rfl
  · rfl
  · exact ⟨rfl, rfl, rfl⟩
  · rfl
  · decide

/-- Claim C6: derived geometry of every packet format matches the
closed form, and the Legacy profile with 64 pixels per column and 16
columns per packet has column size 788 and packet size 12608. -/
theorem claim_C6_packet_sizes :
    (∀ pf : PacketFormat,
      pf.column_size = pf.col_header_size +
        pf.pixels_per_column * pf.channel_data_size + pf.col_footer_size ∧
      pf.lidar_packet_size = pf.packet_header_size +
        pf.columns_per_packet * pf.column_size + pf.packet_footer_size) ∧
    (LegacyFormat 64 16).column_size = 788 ∧
    (LegacyFormat 64 16).column_size = 16 + 12 * 64 + 4 ∧
    (LegacyFormat 64 16).lidar_packet_size = 12608 ∧
    (LegacyFormat 64 16).lidar_packet_size = 16 * 788 :=
  ⟨fun _ => ⟨rfl, rfl⟩, by decide, by decide, by decide, by decide⟩

/-- Claim C9 (counterexample): the five-word-pixel profile is enumerated
in the data model and recognized by the default field table, yet
`from_profile` fails on it (no variant is registered), so `from_profile`
does not succeed for every enumerated profile. -/
theorem claim_C9_counterexample :
    from_profile .PROFILE_LIDAR_FIVE_WORD_PIXEL 64 16 =
      .error "KeyError: unsupported profile" ∧
    (default_scan_fields .PROFILE_LIDAR_FIVE_WORD_PIXEL false false
        initTables).1.isSome = true :=
  ⟨rfl, rfl⟩

/-- Claim C9 (amended): `from_profile` selects and constructs the
matching variant for the Legacy, LowBandwidth, Single-return and
Dual-return profiles, and fails with the unsupported-profile error for
every other profile, including the enumerated five-word-pixel profile. -/
theorem claim_C9_from_profile :
    (∀ ppc cpp, from_profile .PROFILE_LIDAR_LEGACY ppc cpp =
        .ok (LegacyClass, LegacyFormat ppc cpp)) ∧
    (∀ ppc cpp, from_profile .PROFILE_LIDAR_RNG15_RFL8_NIR8 ppc cpp =
        .ok (LBClass, LBFormat ppc cpp)) ∧
    (∀ ppc cpp, from_profile .PROFILE_LIDAR_RNG19_RFL8_SIG16_NIR16 ppc cpp =
        .ok (SingleClass, SingleFormat ppc cpp)) ∧
    (∀ ppc cpp,
      from_profile .PROFILE_LIDAR_RNG19_RFL8_SIG16_NIR16_DUAL ppc cpp =
        .ok (DualClass, DualFormat ppc cpp)) ∧
    (∀ ppc cpp, from_profile .PROFILE_LIDAR_FIVE_WORD_PIXEL ppc cpp =
        .error "KeyError: unsupported profile") ∧
    (∀ ppc cpp, from_profile .PROFILE_LIDAR_CUSTOM0 ppc cpp =
        .error "KeyError: unsupported profile") :=
  ⟨fun _ _ => rfl, fun _ _ => rfl, fun _ _ => rfl, fun _ _ => rfl,
    fun _ _ => rfl, fun _ _ => rfl⟩

/-- Every channel key occurs in the enumeration list. -/
theorem mem_allChanFields (f : ChanField) : f ∈ allChanFields := by
  cases f <;> simp [allChanFields]

/-- Every column-header key occurs in the enumeration list. -/
theorem mem_allColHeaders (h : ColHeader) : h ∈ allColHeaders := by
  cases h <;> simp [allColHeaders]

/-- `convertible a b` holds exactly when `b`'s field keys and header
keys are subsets of `a`'s. -/
theorem convertible_iff (a b : FormatClass) :
    convertible a b = true ↔
      ((∀ f, (b.FIELDS f).isSome = true → (a.FIELDS f).isSome = true) ∧
        (∀ h, (b.HEADERS h).isSome = true → (a.HEADERS h).isSome = true)) := by
  unfold convertible fieldKeys headerKeys
  rw [Bool.and_eq_true, List.all_eq_true, List.all_eq_true]
  constructor
  · intro hand
    obtain ⟨hf, hh⟩ := hand
    refine ⟨fun f hbf => ?_, fun h hbh => ?_⟩
    · have h2 := hf f (List.mem_filter.mpr ⟨mem_allChanFields f, hbf⟩)
      have h3 : f ∈ allChanFields.filter (fun f => (a.FIELDS f).isSome) := by
        simpa using h2
      exact (List.mem_filter.mp h3).2
    · have h2 := hh h (List.mem_filter.mpr ⟨mem_allColHeaders h, hbh⟩)
      have h3 : h ∈ allColHeaders.filter (fun h => (a.HEADERS h).isSome) := by
        simpa using h2
      exact (List.mem_filter.mp h3).2
  · intro hand
    obtain ⟨hf, hh⟩ := hand
    refine ⟨fun f hmem => ?_, fun h hmem => ?_⟩
    · have h3 := List.mem_filter.mp hmem
      have h4 : f ∈ allChanFields.filter (fun f => (a.FIELDS f).isSome) :=
        List.mem_filter.mpr ⟨mem_allChanFields f, hf f h3.2⟩
      simpa using h4
    · have h3 := List.mem_filter.mp hmem
      have h4 : h ∈ allColHeaders.filter (fun h => (a.HEADERS h).isSome) :=
        List.mem_filter.mpr ⟨mem_allColHeaders h, hh h h3.2⟩
      simpa using h4

/-- Claim C7: `convertible(A, B)` is true iff B's field-key set and
header-key set are each subsets of A's; hence it is reflexive, a format
whose key sets are (possibly strict) subsets of another's is
convertible-from but (when strict) not convertible-to that superset,
and concretely the low-bandwidth format is convertible-from but not
convertible-to the single-return format. -/
theorem claim_C7_convertible :
    (∀ a b : FormatClass, convertible a b = true ↔
      ((∀ f, (b.FIELDS f).isSome = true → (a.FIELDS f).isSome = true) ∧
        (∀ h, (b.HEADERS h).isSome = true → (a.HEADERS h).isSome = true))) ∧
    (∀ a : FormatClass, convertible a a = true) ∧
    (∀ a b : FormatClass,
      (∀ f, (b.FIELDS f).isSome = true → (a.FIELDS f).isSome = true) →
      (∀ h, (b.HEADERS h).isSome = true → (a.HEADERS h).isSome = true) →
      ((∃ f, (a.FIELDS f).isSome = true ∧ (b.FIELDS f).isSome = false) ∨
        (∃ h, (a.HEADERS h).isSome = true ∧ (b.HEADERS h).isSome = false)) →
      (convertible a b = true ∧ convertible b a = false)) ∧
    (convertible SingleClass LBClass = true ∧
      convertible LBClass SingleClass = false) := by
  refine ⟨convertible_iff, ?_, ?_, by decide⟩
  · intro a
    rw [convertible_iff]
    exact ⟨fun f hf => hf, fun h hh => hh⟩
  · intro a b hf hh hex
    refine ⟨(convertible_iff a b).mpr ⟨hf, hh⟩, ?_⟩
    cases hba : convertible b a
    · rfl
    · exfalso
      have hsub := (convertible_iff b a).mp hba
      rcases hex with ⟨f, haf, hbf⟩ | ⟨h0, hah, hbh⟩
      · have := hsub.1 f haf
        rw [hbf] at this
        exact Bool.false_ne_true this
      · have := hsub.2 h0 hah
        rw [hbh] at this
        exact Bool.false_ne_true this

/-- Witness for C7: reflexivity at the Legacy class, via the claim
theorem. -/
theorem claim_C7_witness : convertible LegacyClass LegacyClass = true :=
  claim_C7_convertible.2.1 LegacyClass

/-- Claim C8 (counterexample): a buffer of at least `lidar_packet_size`
bytes with a defined key does not always succeed: the Dual-return RANGE
view over a 4353-byte buffer (one byte more than the 4352-byte packet)
leaves 4309 bytes past the view's start offset, not a multiple of the
uint32 itemsize, so the `.view(dtype)` reinterpretation fails. -/
theorem claim_C8_counterexample :
    (DualFormat 16 16).lidar_packet_size = 4352 ∧
    (DualFormat 16 16).lidar_packet_size ≤ 4353 ∧
    (DualClass.FIELDS ChanField.RANGE).isSome = true ∧
    mkMaskedView 4353 (DualFormat 16 16) DualClass
        (Sum.inl ChanField.RANGE) =
      .error "ValueError: new type not compatible with array" :=
  ⟨by decide, by decide, by decide, rfl⟩

/-- Claim C8 (amended): constructing a MaskedView over a buffer shorter
than `lidar_packet_size` fails with the buffer-too-small error; over a
buffer of at least `lidar_packet_size` bytes with a key the profile
defines, it succeeds exactly when the byte count past the view's start
offset is a multiple of the descriptor's itemsize (numpy's
`.view(dtype)` requirement), and otherwise fails with the ValueError of
that reinterpretation. -/
theorem claim_C8_maskedview_errors (dataLen : Nat) (pf : PacketFormat)
    (fc : FormatClass) (key : Sum ChanField ColHeader) :
    (dataLen < pf.lidar_packet_size →
      mkMaskedView dataLen pf fc key =
        .error "Packet buffer smaller than expected size") ∧
    (pf.lidar_packet_size ≤ dataLen →
      ∀ d, (match key with
        | .inl f => fc.FIELDS f
        | .inr h => fc.HEADERS h) = some d →
      (viewSliceLen dataLen (mvSliceStart pf key d) % dtypeBytes d.dtype = 0 →
        mkMaskedView dataLen pf fc key = .ok d) ∧
      (viewSliceLen dataLen (mvSliceStart pf key d) % dtypeBytes d.dtype ≠ 0 →
        mkMaskedView dataLen pf fc key =
          .error "ValueError: new type not compatible with array")) := by
  constructor
  · intro hlt
    unfold mkMaskedView
    rw [if_pos hlt]
  · intro hge d hdef
    unfold mkMaskedView
    rw [if_neg (by omega)]
    cases key with
    | inl f =>
      have hfd : fc.FIELDS f = some d := hdef
      constructor
      · intro hdvd
        simp [hfd, hdvd]
      · intro hndvd
        simp [hfd, hndvd]
    | inr h =>
      have hfd : fc.HEADERS h = some d := hdef
      constructor
      · intro hdvd
        simp [hfd, hdvd]
      · intro hndvd
        simp [hfd, hndvd]

/-- Witness for C8 (amended): the dual-return RANGE field over an
exactly packet-sized buffer (4352 bytes; 4308 bytes past the view
start, divisible by the uint32 itemsize) succeeds. -/
theorem claim_C8_witness :
    mkMaskedView 4352 (DualFormat 16 16) DualClass
        (Sum.inl ChanField.RANGE) =
      Except.ok (fd 0 .uint32 0x0007ffff 0) :=
  ((claim_C8_maskedview_errors 4352 (DualFormat 16 16) DualClass
      (Sum.inl ChanField.RANGE)).2 (by decide)
    (fd 0 .uint32 0x0007ffff 0) (by decide)).1 (by decide)

/-- Reading back one uint16 element of a strided scalar assignment:
every written element holds the value wrapped to 16 bits,
little-endian. -/
theorem readLE_writeStrided (buf : Buf) (start stride count v c : Nat)
    (h2 : 2 ≤ stride) (hc : c < count) :
    readLE (writeStrided buf start stride count 2 v) (start + c * stride) 2
      = v % 65536 := by
  have hs0 : 0 < stride := by omega
  have hsub1 : start + c * stride - start = c * stride :=
    Nat.add_sub_cancel_left start (c * stride)
  have hsub2 : start + c * stride + 1 - start = c * stride + 1 := by
    rw [Nat.add_assoc]
    exact Nat.add_sub_cancel_left start (c * stride + 1)
  have hdiv1 : c * stride / stride = c := by
    rw [Nat.mul_comm]
    exact Nat.mul_div_cancel_left c hs0
  have hmod1 : c * stride % stride = 0 := Nat.mul_mod_left c stride
  have hdiv2 : (c * stride + 1) / stride = c := by
    rw [Nat.mul_comm c stride, Nat.mul_add_div hs0,
      Nat.div_eq_of_lt (by omega)]
    omega
  have hmod2 : (c * stride + 1) % stride = 1 := by
    rw [Nat.mul_comm c stride, Nat.mul_add_mod]
    exact Nat.mod_eq_of_lt (by omega)
  have e1 : writeStrided buf start stride count 2 v (start + c * stride)
      = byteOfElem v 0 := by
    unfold writeStrided
    rw [hsub1, if_pos ⟨Nat.le_add_right start (c * stride),
      by rw [hdiv1]; exact hc, by rw [hmod1]; omega⟩, hmod1]
  have e2 : writeStrided buf start stride count 2 v (start + c * stride + 1)
      = byteOfElem v 1 := by
    unfold writeStrided
    rw [hsub2, if_pos ⟨by omega,
      by rw [hdiv2]; exact hc, by rw [hmod2]; omega⟩, hmod2]
  show writeStrided buf start stride count 2 v (start + c * stride) % 256 +
      256 * (writeStrided buf start stride count 2 v
        (start + c * stride + 1) % 256 + 256 * 0) = v % 65536
  rw [e1, e2]
  unfold byteOfElem
  simp only [Nat.pow_zero, Nat.pow_one, Nat.div_one]
  omega

/-- Claim C10: for the Legacy format, `set_frame_id` writes the value
(wrapped to uint16, little-endian) into the FRAME_ID column-header field
of every column of the packet, and a subsequent `frame_id` read (first
column) returns the value mod 2^16. -/
theorem claim_C10_legacy_set_frame_id (ppc cpp : Nat) (buf : Buf) (v : Nat)
    (hcpp : 0 < cpp) :
    (∀ c, c < cpp →
      readLE (legacy_set_frame_id (LegacyFormat ppc cpp) buf v)
        (10 + c * (LegacyFormat ppc cpp).column_size) 2 = v % 65536) ∧
    legacy_frame_id (LegacyFormat ppc cpp)
      (legacy_set_frame_id (LegacyFormat ppc cpp) buf v) = v % 65536 := by
  have hcs : 2 ≤ (LegacyFormat ppc cpp).column_size := by
    show 2 ≤ 16 + ppc * 12 + 4
    omega
  constructor
  · intro c hc
    have h2 := readLE_writeStrided buf 10 ((LegacyFormat ppc cpp).column_size)
      cpp (v % 65536) c hcs hc
    exact h2.trans (by omega)
  · have h2 := readLE_writeStrided buf 10 ((LegacyFormat ppc cpp).column_size)
      cpp (v % 65536) 0 hcs hcpp
    rw [Nat.zero_mul, Nat.add_zero] at h2
    exact h2.trans (by omega)

/-- Witness for C10: a single-column Legacy packet and a value above
2^16, read back wrapped. -/
theorem claim_C10_witness :
    legacy_frame_id (LegacyFormat 1 1)
      (legacy_set_frame_id (LegacyFormat 1 1) (fun _ => 0) 70000)
      = 70000 % 65536 :=
  (claim_C10_legacy_set_frame_id 1 1 (fun _ => 0) 70000 (by decide)).2

/-- Claim C5: reconstruction yields nothing without the RAW_HEADERS
channel; otherwise it visits groups of `columns_per_packet` columns from
index 0, keeps exactly the groups whose first column is nonzero
(skipping the all-zero ones), yields `ceil(w / columns_per_packet)`
buffers when every group's first column is populated, and every yielded
buffer has exactly `lidar_packet_size` bytes. -/
theorem claim_C5_reconstruction_counts (s : LidarScan) (pf : PacketFormat)
    (isize : Nat) :
    (s.fields.contains ChanField.RAW_HEADERS = false →
      gen_scan_buffers_fast s pf isize = []) ∧
    (s.fields.contains ChanField.RAW_HEADERS = true →
      (gen_scan_buffers_fast s pf isize).length =
        ((packetIdxList s.w pf.columns_per_packet).filter
          (fun pi => colAny s pi)).length) ∧
    (s.fields.contains ChanField.RAW_HEADERS = true →
      (∀ pi ∈ packetIdxList s.w pf.columns_per_packet, colAny s pi = true) →
      (gen_scan_buffers_fast s pf isize).length =
        (s.w + pf.columns_per_packet - 1) / pf.columns_per_packet) ∧
    (∀ b ∈ gen_scan_buffers_fast s pf isize,
      b.length = pf.lidar_packet_size) := by
  have hL := filterMap_guard_length (packetIdxList s.w pf.columns_per_packet)
    (fun pi => colAny s pi)
    (fun pi => (List.range pf.lidar_packet_size).map
      (fastPacketBuf s.rh pf isize pi))
  refine ⟨?_, ?_, ?_, ?_⟩
  · intro h
    unfold gen_scan_buffers_fast
    rw [if_pos (by simpa using h)]
  · intro h
    unfold gen_scan_buffers_fast
    rw [if_neg (by simpa using h)]
    exact hL
  · intro h hall
    unfold gen_scan_buffers_fast
    rw [if_neg (by simpa using h)]
    refine hL.trans ?_
    rw [List.filter_eq_self.mpr ?_]
    · simp [packetIdxList]
    · intro a ha
      exact hall a ha
  · intro b hb
    unfold gen_scan_buffers_fast at hb
    by_cases hrh : s.fields.contains ChanField.RAW_HEADERS
    · rw [if_neg (by simpa using hrh)] at hb
      rw [List.mem_filterMap] at hb
      obtain ⟨pi, hpi, hsome⟩ := hb
      by_cases hca : colAny s pi
      · rw [if_neg (by simp [hca])] at hsome
        obtain rfl := Option.some.inj hsome
        simp
      · rw [if_pos (by simp [hca])] at hsome
        exact absurd hsome (by simp)
    · rw [if_pos (by simpa using hrh)] at hb
      exact absurd hb (by simp)

/-- Witness for C5: a fully populated two-column scan with one column
per packet yields ceil(2/1) = 2 buffers. -/
theorem claim_C5_witness :
    (gen_scan_buffers_fast ⟨2, 1, [ChanField.RAW_HEADERS], fun _ _ => 1⟩
        (DualFormat 1 1) 4).length = (2 + 1 - 1) / 1 :=
  (claim_C5_reconstruction_counts ⟨2, 1, [ChanField.RAW_HEADERS], fun _ _ => 1⟩
    (DualFormat 1 1) 4).2.2.1 (by decide) (by decide)

/-- Masking a read-modify-write combination with the complement keeps
exactly the old bits outside the mask. -/
theorem lor_land_compl_right (n M x y : Nat) (hM : M < 2 ^ n) :
    ((x &&& M) ||| (y &&& ((2 ^ n - 1) ^^^ M))) &&& ((2 ^ n - 1) ^^^ M)
      = y &&& ((2 ^ n - 1) ^^^ M) := by
  apply Nat.eq_of_testBit_eq
  intro i
  simp only [Nat.testBit_and, Nat.testBit_or, Nat.testBit_xor,
    Nat.testBit_two_pow_sub_one]
  by_cases hin : i < n
  · have hd : decide (i < n) = true := by simp [hin]
    rw [hd]
    cases M.testBit i <;> cases x.testBit i <;> cases y.testBit i <;> rfl
  · have hd : decide (i < n) = false := by simp [hin]
    have hMi : M.testBit i = false :=
      Nat.testBit_lt_two_pow (lt_of_lt_of_le hM
        (Nat.pow_le_pow_right (by omega) (Nat.le_of_not_lt hin)))
    rw [hd, hMi]
    cases x.testBit i <;> cases y.testBit i <;> rfl

/-- Masking a read-modify-write combination with the mask itself keeps
exactly the newly written bits inside the mask. -/
theorem lor_land_mask_right (n M x y : Nat) (hM : M < 2 ^ n) :
    ((x &&& M) ||| (y &&& ((2 ^ n - 1) ^^^ M))) &&& M = x &&& M := by
  apply Nat.eq_of_testBit_eq
  intro i
  simp only [Nat.testBit_and, Nat.testBit_or, Nat.testBit_xor,
    Nat.testBit_two_pow_sub_one]
  by_cases hin : i < n
  · have hd : decide (i < n) = true := by simp [hin]
    rw [hd]
    cases M.testBit i <;> cases x.testBit i <;> cases y.testBit i <;> rfl
  · have hd : decide (i < n) = false := by simp [hin]
    have hMi : M.testBit i = false :=
      Nat.testBit_lt_two_pow (lt_of_lt_of_le hM
        (Nat.pow_le_pow_right (by omega) (Nat.le_of_not_lt hin)))
    rw [hd, hMi]
    cases x.testBit i <;> cases y.testBit i <;> rfl

/-- Claim C4: writing through the MaskedView and reading back: the bits
outside a nonzero mask are preserved from the prior stored element, the
read-back value is the written value masked and shifted per the
descriptor (for right-shift, zero-shift and left-shift descriptors),
with a zero mask the stored element is fully overwritten (independent
of the prior value); and the Dual-return FLAGS descriptor (offset 2,
mask 0b11111000, shift 3) decodes stored byte 0b11111000 to 0b00011111
and stores decoded 0b00000101 as 0b00101000 combined with the original
non-flag bits. -/
theorem claim_C4_maskedview_roundtrip (d : FieldDescr) (old v w2 : Nat)
    (hold : old < elemMod d) (hmask : d.mask < elemMod d) (hw : w2 < 256) :
    (d.mask ≠ 0 →
      mv_write d old v &&& ((elemMod d - 1) ^^^ d.mask)
        = old &&& ((elemMod d - 1) ^^^ d.mask)) ∧
    (d.mask ≠ 0 → 0 < d.shift →
      mv_read d (mv_write d old v)
        = ((v <<< d.shift.toNat) &&& d.mask) >>> d.shift.toNat) ∧
    (d.mask ≠ 0 → d.shift = 0 →
      mv_read d (mv_write d old v) = v &&& d.mask) ∧
    (d.mask ≠ 0 → d.shift < 0 →
      mv_read d (mv_write d old v)
        = (((v >>> (-d.shift).toNat) &&& d.mask) <<< (-d.shift).toNat)
            % elemMod d) ∧
    (d.mask = 0 → ∀ old2, mv_write d old v = mv_write d old2 v) ∧
    dualFIELDS ChanField.FLAGS = some (fd 2 .uint8 0b11111000 3) ∧
    mv_read (fd 2 .uint8 0b11111000 3) 0b11111000 = 0b00011111 ∧
    mv_write (fd 2 .uint8 0b11111000 3) w2 0b00000101
      = 0b00101000 ||| (w2 &&& 0b00000111) := by
  have hmask2 : d.mask < 2 ^ (8 * dtypeBytes d.dtype) := hmask
  refine ⟨?_, ?_, ?_, ?_, ?_, rfl, by decide, rfl⟩
  · intro hm
    simp only [mv_write, elemMod, hm, if_true, ne_eq, not_false_eq_true,
      ite_true]
    exact lor_land_compl_right (8 * dtypeBytes d.dtype) d.mask _ old hmask2
  · intro hm hs
    simp only [mv_read, mv_write, elemMod, hm, hs, ne_eq, not_false_eq_true,
      ite_true, if_true]
    rw [lor_land_mask_right (8 * dtypeBytes d.dtype) d.mask
      (v <<< d.shift.toNat) old hmask2]
  · intro hm hs
    simp only [mv_read, mv_write, elemMod, hm, hs, ne_eq, not_false_eq_true,
      ite_true, if_true, lt_self_iff_false, if_false, ite_false]
    rw [lor_land_mask_right (8 * dtypeBytes d.dtype) d.mask v old hmask2]
  · intro hm hs
    have hns : ¬ 0 < d.shift := by omega
    simp only [mv_read, mv_write, elemMod, hm, hs, hns, ne_eq,
      not_false_eq_true, ite_true, if_true, if_false, ite_false]
    rw [lor_land_mask_right (8 * dtypeBytes d.dtype) d.mask
      (v >>> (-d.shift).toNat) old hmask2]
  · intro h0 old2
    simp [mv_write, h0]

/-- Witness for C4 at the Dual-return FLAGS descriptor with a concrete
stored byte. -/
theorem claim_C4_witness :
    (0 : Nat) < 256 ∧
    mv_read (fd 2 FieldDType.uint8 0b11111000 3) 0b11111000 = 0b00011111 :=
  ⟨by decide, (claim_C4_maskedview_roundtrip (fd 2 .uint8 0b11111000 3) 0 0 0
    (by decide) (by decide) (by decide)).2.2.2.2.2.2.1⟩
